import Mathlib

/-!
Verification of `visualize_data.py` (single-cell visualization script).

The script is embedded shallowly: Python floats become exact rationals
(all numeric literals the script manipulates are short decimals, and every
comparison the claims mention is exact on them), the matplotlib calls the
script issues become a `Figure` data structure recording the scatter calls
in issue order together with their style parameters, the legend entries and
the text annotation, and the process becomes the pure function `mainRun`
from the argument vector and the state of the input file to a `RunResult`
(exit status, printed lines, whether loading was attempted, the figure, and
whether the output image was written).
-/

namespace VisualizeData

/-- `DATA_PATH` constant of the script (line 19). -/
def DATA_PATH : String := "/data/experiment/single_cell_data.npz"

/-- `DEFAULT_THRESHOLD` constant (line 22). -/
def DEFAULT_THRESHOLD : ℚ := 2

/-- `DEFAULT_TITLE` constant (line 23). -/
def DEFAULT_TITLE : String := "Single Cell Analysis"

/-- `DEFAULT_CELL_TYPE` constant (line 24). -/
def DEFAULT_CELL_TYPE : String := "t_cells"

/-- The fixed output path (line 185). -/
def OUTPUT_FILE : String := "/results/single_cell_viz.png"

/-- The `valid_types` list of `main` (line 156). -/
def valid_types : List String := ["t_cells", "b_cells", "monocytes", "nk_cells"]

/-- The six parallel arrays of the npz bundle returned by `load_data`
(lines 35-42).  Numeric columns are modelled as exact rationals, colors as
strings. -/
structure CellData where
  x : List ℚ
  y : List ℚ
  cell_types : List String
  gene1 : List ℚ
  gene2 : List ℚ
  colors : List String
deriving Repr, DecidableEq

/-! ### Modelling Python library primitives used by the script -/

/-- Models CPython `float(s)` restricted to finite decimal literals:
optional surrounding whitespace, optional sign, digits with an optional
decimal point, optional decimal exponent.  Returns `none` exactly when
CPython's `float` raises `ValueError` on such strings (the special
spellings `inf`/`nan` and underscore separators, which never occur in this
program's intended inputs, are outside the model).  The value is kept as an
exact rational. -/
def pyFloat (s : String) : Option ℚ :=
  let cs := ((s.toList.dropWhile Char.isWhitespace).reverse.dropWhile
    Char.isWhitespace).reverse
  let signStripped : Bool × List Char :=
    match cs with
    | '-' :: rest => (true, rest)
    | '+' :: rest => (false, rest)
    | rest => (false, rest)
  let neg := signStripped.1
  let cs1 := signStripped.2
  let intDigits := cs1.takeWhile Char.isDigit
  let afterInt := cs1.dropWhile Char.isDigit
  let mantissa : Option (ℚ × List Char) :=
    match afterInt with
    | '.' :: cs2 =>
      let fracDigits := cs2.takeWhile Char.isDigit
      let afterFrac := cs2.dropWhile Char.isDigit
      if intDigits.isEmpty && fracDigits.isEmpty then none
      else some
        ((intDigits.foldl (fun n c => 10 * n + (c.toNat - 48)) 0 : ℚ) +
           (fracDigits.foldl (fun n c => 10 * n + (c.toNat - 48)) 0 : ℚ) /
             (10 : ℚ) ^ fracDigits.length,
         afterFrac)
    | rest =>
      if intDigits.isEmpty then none
      else some ((intDigits.foldl (fun n c => 10 * n + (c.toNat - 48)) 0 : ℚ), rest)
  match mantissa with
  | none => none
  | some (m, rest) =>
    let expPart : Option (ℤ × List Char) :=
      match rest with
      | [] => some (0, [])
      | c :: cs2 =>
        if c == 'e' || c == 'E' then
          let esign : Bool × List Char :=
            match cs2 with
            | '-' :: r => (true, r)
            | '+' :: r => (false, r)
            | r => (false, r)
          let eDigits := esign.2.takeWhile Char.isDigit
          let afterE := esign.2.dropWhile Char.isDigit
          if eDigits.isEmpty then none
          else some
            ((if esign.1 then -(eDigits.foldl (fun n c => 10 * n + (c.toNat - 48)) 0 : ℤ)
              else (eDigits.foldl (fun n c => 10 * n + (c.toNat - 48)) 0 : ℤ)),
             afterE)
        else some (0, c :: cs2)
    match expPart with
    | none => none
    | some (e, rest2) =>
      if rest2.isEmpty then some ((if neg then -m else m) * (10 : ℚ) ^ e)
      else none

/-- Models Python `str()` on a float for the values arising here: an
integral value prints with a trailing `.0`; a value with a terminating
decimal expansion prints its (minimal) decimal digits.  Rationals with no
terminating expansion (which no Python float is) fall back to a
fraction spelling; shortest-round-trip artifacts of binary floats are not
modelled. -/
def pyStrFloat (q : ℚ) : String :=
  let sign := if q.num < 0 then "-" else ""
  let n := q.num.natAbs
  let d := q.den
  if d = 1 then sign ++ toString n ++ ".0"
  else
    match (List.range 64).find? (fun k => 10 ^ k % d == 0) with
    | some k =>
      let m := n * (10 ^ k / d)
      let ip := m / 10 ^ k
      let fp := m % 10 ^ k
      let fpStr := toString fp
      let pad := String.mk (List.replicate (k - fpStr.length) '0')
      sign ++ toString ip ++ "." ++ pad ++ fpStr
    | none => sign ++ toString n ++ "/" ++ toString d

/-- Models Python `str.title()` for the ASCII strings arising here: the
first letter of every alphabetic run is uppercased, the rest lowercased. -/
def pyTitle (s : String) : String :=
  String.mk (s.toList.foldl
    (fun (acc : List Char × Bool) c =>
      if c.isAlpha then
        (acc.1 ++ [if acc.2 then c.toLower else c.toUpper], true)
      else (acc.1 ++ [c], false))
    ([], false)).1

/-! ### The renderer (`plot_single_cell_data`, lines 51-140) -/

/-- One `ax.scatter(...)` call with the style parameters the script passes.
`c := none` together with `facecolorsNone := true` is the
`facecolors='none'` open-circle call of Panel B; `zorder := none` means the
kwarg was not passed. -/
structure ScatterCall where
  xs : List ℚ
  ys : List ℚ
  c : Option (List String) := none
  s : ℚ
  alpha : ℚ
  edgecolors : String
  linewidth : ℚ
  zorder : Option ℤ := none
  facecolorsNone : Bool := false
deriving Repr, DecidableEq

/-- One legend proxy entry built in the loop at lines 93-102; `ctName` is
the `cell_types_legend` dict key the entry was built from. -/
structure LegendEntry where
  ctName : String
  label : String
  color : String
  markerSize : ℚ
  alpha : ℚ
  edgeColor : String
  edgeWidth : ℚ
deriving Repr, DecidableEq

/-- The `cell_types_legend` dict (lines 86-91), in insertion order, as
(key, label, color) triples. -/
def cellTypesLegend : List (String × String × String) :=
  [("t_cells", "T Cells", "#e74c3c"),
   ("b_cells", "B Cells", "#3498db"),
   ("monocytes", "Monocytes", "#2ecc71"),
   ("nk_cells", "NK Cells", "#f39c12")]

/-- The legend-building loop (lines 93-102). -/
def legendElements (highlighted_type : String) : List LegendEntry :=
  cellTypesLegend.map (fun t =>
    let ct_name := t.1
    let label := t.2.1
    let color := t.2.2
    { ctName := ct_name,
      label := label ++ (if ct_name == highlighted_type then " (Selected)" else ""),
      color := color,
      markerSize := if ct_name == highlighted_type then 120 else 50,
      alpha := 9/10,
      edgeColor := if ct_name == highlighted_type then "gold" else "white",
      edgeWidth := if ct_name == highlighted_type then 5/2 else 1/2 })

/-- Numpy boolean-mask indexing `vals[mask]`: the elements of `vals` at
the positions where `mask` is true (the script only uses it with masks of
the same length as the array). -/
def maskFilter (mask : List Bool) (vals : List α) : List α :=
  ((mask.zip vals).filter (fun p => p.1)).map (fun p => p.2)

/-- The Panel B mask `(gene1 > threshold) & (gene2 > threshold)`
(line 120): elementwise strict comparison on both columns. -/
def above_threshold (threshold : ℚ) (gene1 gene2 : List ℚ) : List Bool :=
  List.zipWith (fun a b => decide (a > threshold) && decide (b > threshold)) gene1 gene2

/-- The figure assembled by `plot_single_cell_data`: scatter calls per
panel in issue order, legend entries, threshold reference lines, and the
Panel B count annotation text.  Axis labels, titles, grid and style-only
settings are not recorded. -/
structure Figure where
  suptitle : String
  ax1Calls : List ScatterCall
  legendEntries : List LegendEntry
  ax2Calls : List ScatterCall
  thresholdLineY : ℚ
  thresholdLineX : ℚ
  annotText : String
deriving Repr, DecidableEq

/-- `plot_single_cell_data(data, threshold, title, highlighted_type)`
(lines 51-140): builds the highlight mask by exact string equality
(line 64), scatters non-highlighted cells (lines 70-72) then — only when
the mask has any true entry — highlighted cells with `zorder=100`
(lines 75-78); builds the four legend entries (lines 86-105); scatters the
gene-expression panel (lines 111-112), draws the threshold lines
(lines 115-117), overlays open circles on the above-threshold cells with
`zorder=99` when any exist (lines 120-124), and writes the count
annotation (lines 133-137). -/
def plot_single_cell_data (data : CellData) (threshold : ℚ) (title : String)
    (highlighted_type : String) : Figure :=
  let highlight_mask := data.cell_types.map (fun ct => ct == highlighted_type)
  let negMask := highlight_mask.map (fun b => !b)
  let call1 : ScatterCall :=
    { xs := maskFilter negMask data.x, ys := maskFilter negMask data.y,
      c := some (maskFilter negMask data.colors), s := 50, alpha := 6/10,
      edgecolors := "white", linewidth := 1/2 }
  let ax1Calls :=
    if highlight_mask.any id then
      [call1,
       { xs := maskFilter highlight_mask data.x, ys := maskFilter highlight_mask data.y,
         c := some (maskFilter highlight_mask data.colors), s := 120, alpha := 9/10,
         edgecolors := "gold", linewidth := 5/2, zorder := some 100 }]
    else [call1]
  let mask2 := above_threshold threshold data.gene1 data.gene2
  let call3 : ScatterCall :=
    { xs := data.gene1, ys := data.gene2, c := some data.colors, s := 80, alpha := 6/10,
      edgecolors := "white", linewidth := 1/2 }
  let ax2Calls :=
    if mask2.any id then
      [call3,
       { xs := maskFilter mask2 data.gene1, ys := maskFilter mask2 data.gene2,
         s := 200, alpha := 7/10, edgecolors := "red", linewidth := 5/2,
         zorder := some 99, facecolorsNone := true }]
    else [call3]
  let n_above := mask2.count true
  { suptitle := title,
    ax1Calls := ax1Calls,
    legendEntries := legendElements highlighted_type,
    ax2Calls := ax2Calls,
    thresholdLineY := threshold,
    thresholdLineX := threshold,
    annotText := "Cells above threshold: " ++ toString n_above ++ "/" ++
      toString data.gene1.length }

/-! ### The loader (`load_data`, lines 31-49) and `main` (lines 142-190) -/

/-- The ASCII single-quote character as a one-character string, spelled
via its code point (several of the script's messages quote values with
it). -/
def sq : String := String.mk [Char.ofNat 39]

/-- Outcome of `load_data`: the bundle on success, or the lines printed
before `exit(1)`.  The input file's state is modelled as `Option CellData`:
`none` when the file is absent (`FileNotFoundError`). -/
inductive LoadResult where
  | ok (d : CellData)
  | failed (printed : List String)
deriving Repr, DecidableEq

/-- `load_data(filepath)` (lines 31-49) against a file state. -/
def load_data (filepath : String) (file : Option CellData) : LoadResult :=
  match file with
  | some d => .ok d
  | none =>
    .failed
      ["\n❌ Error: File " ++ sq ++ filepath ++ sq ++ " not found!",
       "Please generate data first using: python generate_data.py"]

/-- Outcome of the argument-resolution block of `main` (lines 144-162):
`floatValueError` is the uncaught `ValueError` from `float(sys.argv[1])`;
`invalidCellType` records the two lines printed before `exit(1)`. -/
inductive ArgResult where
  | floatValueError
  | invalidCellType (printed : List String)
  | ok (threshold : ℚ) (title : String) (cell_type : String)
deriving Repr, DecidableEq

/-- The argument-resolution block of `main` (lines 144-162), on the full
`sys.argv` list (index 0 is the script name). -/
def resolveArgs (argv : List String) : ArgResult :=
  let thresholdStep : Option ℚ :=
    if argv.length > 1 then pyFloat (argv.getD 1 "") else some DEFAULT_THRESHOLD
  match thresholdStep with
  | none => .floatValueError
  | some threshold =>
    let title := if argv.length > 2 then argv.getD 2 "" else DEFAULT_TITLE
    if argv.length > 3 then
      let cell_type := argv.getD 3 ""
      if cell_type ∈ valid_types then .ok threshold title cell_type
      else
        .invalidCellType
          ["\n❌ Error: Invalid cell type " ++ sq ++ cell_type ++ sq,
           "Valid options: " ++ String.intercalate ", " valid_types]
    else .ok threshold title DEFAULT_CELL_TYPE

/-- Exit status of a run: `normal` is falling off the end of `main`
(process exit code 0), `exited c` an explicit `exit(c)`, `uncaught` an
uncaught Python exception (nonzero exit, interpreter traceback, no message
printed by the program itself). -/
inductive ExitStatus where
  | normal
  | exited (code : Nat)
  | uncaught
deriving Repr, DecidableEq

/-- Observable outcome of one run: exit status, the strings passed to
`print` in order, whether `load_data` was reached, the figure built (when
rendering happened) and whether the output image was (over)written. -/
structure RunResult where
  status : ExitStatus
  printed : List String
  attemptedLoad : Bool
  figure : Option Figure
  wroteOutput : Bool
deriving Repr, DecidableEq

/-- A bar of sixty equals signs (`"="*60`, line 165). -/
def eqBar : String := String.mk (List.replicate 60 '=')

/-- `main()` (lines 142-190) as a function of `sys.argv` and the input
file's state: resolve arguments (lines 144-162), print the parameter
summary (lines 165-172), load (lines 175-177), render (line 181), save the
image to the fixed path (lines 185-187), show, and print the final line. -/
def mainRun (argv : List String) (file : Option CellData) : RunResult :=
  match resolveArgs argv with
  | .floatValueError =>
    { status := .uncaught, printed := [], attemptedLoad := false,
      figure := none, wroteOutput := false }
  | .invalidCellType msgs =>
    { status := .exited 1, printed := msgs, attemptedLoad := false,
      figure := none, wroteOutput := false }
  | .ok threshold title cell_type =>
    let summary : List String :=
      ["\n" ++ eqBar,
       "Single Cell Data Visualization",
       eqBar,
       "Data file:        " ++ DATA_PATH,
       "Threshold:        " ++ pyStrFloat threshold,
       "Title:            " ++ title,
       "Highlighted Type: " ++ pyTitle (cell_type.replace "_" " "),
       eqBar ++ "\n",
       "Loading data..."]
    match load_data DATA_PATH file with
    | .failed errs =>
      { status := .exited 1, printed := summary ++ errs,
        attemptedLoad := true, figure := none, wroteOutput := false }
    | .ok data =>
      let fig := plot_single_cell_data data threshold title cell_type
      { status := .normal,
        printed := summary ++
          ["✓ Loaded " ++ toString data.x.length ++ " cells",
           "Creating visualization...",
           "✓ Plot saved as: " ++ OUTPUT_FILE,
           "\nDone!"],
        attemptedLoad := true, figure := some fig, wroteOutput := true }

/-! ### Helper lemmas and concrete data -/

/-- Concrete four-cell dataset used to instantiate the theorems; the gene
columns are the spec's worked example. -/
def exampleData : CellData :=
  { x := [1, 2, 3, 4], y := [5, 6, 7, 8],
    cell_types := ["t_cells", "b_cells", "monocytes", "nk_cells"],
    gene1 := [1, 4, 5, 2], gene2 := [1, 5, 2, 6],
    colors := ["#e74c3c", "#3498db", "#2ecc71", "#f39c12"] }

/-- Entry `i` of a pointwise `zipWith` mask is the pointwise predicate at
the entries `i` of the two columns. -/
theorem getD_zipWith (f : ℚ → ℚ → Bool) (l1 : List ℚ) :
    ∀ (l2 : List ℚ) (i : Nat), i < l1.length → i < l2.length →
      (List.zipWith f l1 l2).getD i false = f (l1.getD i 0) (l2.getD i 0) := by
  induction l1 with
  | nil => intro l2 i h1 _; simp at h1
  | cons a t ih =>
    intro l2 i h1 h2
    cases l2 with
    | nil => simp at h2
    | cons b t2 =>
      cases i with
      | zero => simp
      | succ n =>
        simp only [List.zipWith_cons_cons, List.getD_cons_succ]
        exact ih t2 n (by simpa using h1) (by simpa using h2)

/-- Counting the true entries of a pointwise `zipWith` mask over two
equal-length columns equals counting the indices at which the pointwise
predicate holds. -/
theorem count_true_zipWith (f : ℚ → ℚ → Bool) (l1 : List ℚ) :
    ∀ (l2 : List ℚ), l1.length = l2.length →
      (List.zipWith f l1 l2).count true =
        (List.range l1.length).countP (fun i => f (l1.getD i 0) (l2.getD i 0)) := by
  induction l1 with
  | nil => intro l2 _; simp
  | cons a t ih =>
    intro l2 h
    cases l2 with
    | nil => simp at h
    | cons b t2 =>
      have h' : t.length = t2.length := by simpa using h
      simp only [List.zipWith_cons_cons, List.length_cons, List.range_succ_eq_map,
        List.count_cons, List.countP_cons, List.countP_map, Function.comp_def,
        List.getD_cons_succ, List.getD_cons_zero]
      rw [ih t2 h']
      simp [Nat.add_comm]

/-! ### C1: the above-threshold mask and the Panel B count -/

/-- C1: for every threshold and equal-length gene columns, the renderer's
above-threshold mask is the pointwise strict conjunction
`gene1[i] > T && gene2[i] > T`, and the Panel B annotation text displays
the number of indices satisfying it out of the total cell count. -/
theorem above_threshold_count_spec (threshold : ℚ) (data : CellData)
    (title ht : String) (hlen : data.gene1.length = data.gene2.length) :
    (∀ i, i < data.gene1.length →
      (above_threshold threshold data.gene1 data.gene2).getD i false =
        (decide (data.gene1.getD i 0 > threshold) &&
         decide (data.gene2.getD i 0 > threshold))) ∧
    (plot_single_cell_data data threshold title ht).annotText =
      "Cells above threshold: " ++
        toString ((List.range data.gene1.length).countP
          (fun i => decide (data.gene1.getD i 0 > threshold) &&
                    decide (data.gene2.getD i 0 > threshold))) ++
        "/" ++ toString data.gene1.length := by
  constructor
  · intro i hi
    exact getD_zipWith _ data.gene1 data.gene2 i hi (hlen ▸ hi)
  · show ("Cells above threshold: " ++
        toString ((above_threshold threshold data.gene1 data.gene2).count true) ++
        "/" ++ toString data.gene1.length) = _
    rw [above_threshold, count_true_zipWith _ data.gene1 data.gene2 hlen]

/-- C1 witness: the spec's worked example (threshold 3, gene1 = [1,4,5,2],
gene2 = [1,5,2,6]) has mask [false, true, false, false] and displayed
count 1/4. -/
theorem above_threshold_count_spec_witness :
    above_threshold 3 exampleData.gene1 exampleData.gene2 =
      [false, true, false, false] ∧
    (plot_single_cell_data exampleData 3 DEFAULT_TITLE "t_cells").annotText =
      "Cells above threshold: 1/4" ∧
    exampleData.gene1.length = exampleData.gene2.length ∧
    ((∀ i, i < exampleData.gene1.length →
      (above_threshold 3 exampleData.gene1 exampleData.gene2).getD i false =
        (decide (exampleData.gene1.getD i 0 > 3) &&
         decide (exampleData.gene2.getD i 0 > 3))) ∧
    (plot_single_cell_data exampleData 3 DEFAULT_TITLE "t_cells").annotText =
      "Cells above threshold: " ++
        toString ((List.range exampleData.gene1.length).countP
          (fun i => decide (exampleData.gene1.getD i 0 > 3) &&
                    decide (exampleData.gene2.getD i 0 > 3))) ++
        "/" ++ toString exampleData.gene1.length) :=
  ⟨by decide, by decide, rfl,
   above_threshold_count_spec 3 exampleData DEFAULT_TITLE "t_cells" rfl⟩

/-! ### C2 / C6 / C7 / C9: argument resolution -/

/-- C2: when the threshold argument parses and the third positional
argument is outside the allowed set, the run prints the invalid-cell-type
error listing the four valid options, exits with code 1, and neither
attempts to load the data file nor renders nor writes output.  (The
threshold-parse hypothesis is needed because `float(sys.argv[1])` runs
first; its failure preempts this path — see the precedence theorem.) -/
theorem invalid_cell_type_spec (argv : List String) (file : Option CellData)
    (hthr : (pyFloat (argv.getD 1 "")).isSome)
    (hlen : argv.length > 3)
    (hbad : argv.getD 3 "" ∉ valid_types) :
    (mainRun argv file).status = .exited 1 ∧
    (mainRun argv file).printed =
      ["\n❌ Error: Invalid cell type " ++ sq ++ argv.getD 3 "" ++ sq,
       "Valid options: t_cells, b_cells, monocytes, nk_cells"] ∧
    (mainRun argv file).attemptedLoad = false ∧
    (mainRun argv file).figure = none ∧
    (mainRun argv file).wroteOutput = false := by
  have h1 : argv.length > 1 := by omega
  obtain ⟨t, ht⟩ := Option.isSome_iff_exists.mp hthr
  have e1 : (if argv.length > 1 then pyFloat (argv.getD 1 "")
             else some DEFAULT_THRESHOLD) = some t := by rw [if_pos h1, ht]
  have hres : resolveArgs argv =
      .invalidCellType
        ["\n❌ Error: Invalid cell type " ++ sq ++ argv.getD 3 "" ++ sq,
         "Valid options: " ++ String.intercalate ", " valid_types] := by
    simp only [resolveArgs, e1]
    rw [if_pos hlen, if_neg hbad]
  have hmain : mainRun argv file =
      { status := .exited 1,
        printed :=
          ["\n❌ Error: Invalid cell type " ++ sq ++ argv.getD 3 "" ++ sq,
           "Valid options: " ++ String.intercalate ", " valid_types],
        attemptedLoad := false, figure := none, wroteOutput := false } := by
    simp only [mainRun, hres]
  rw [hmain]
  refine ⟨rfl, ?_, rfl, rfl, rfl⟩
  rw [List.cons.injEq]
  exact ⟨rfl, by rfl⟩

/-- C2 witness: `visualize_data.py 2.5 T x_cells` exits 1 with the
invalid-cell-type message and performs no load, render or write. -/
theorem invalid_cell_type_spec_witness :
    (pyFloat ((["visualize_data.py", "2.5", "T", "x_cells"] : List String).getD 1 "")).isSome ∧
    (["visualize_data.py", "2.5", "T", "x_cells"] : List String).length > 3 ∧
    (["visualize_data.py", "2.5", "T", "x_cells"] : List String).getD 3 "" ∉ valid_types ∧
    ((mainRun ["visualize_data.py", "2.5", "T", "x_cells"] none).status = .exited 1 ∧
     (mainRun ["visualize_data.py", "2.5", "T", "x_cells"] none).printed =
       ["\n❌ Error: Invalid cell type " ++ sq ++
          (["visualize_data.py", "2.5", "T", "x_cells"] : List String).getD 3 "" ++ sq,
        "Valid options: t_cells, b_cells, monocytes, nk_cells"] ∧
     (mainRun ["visualize_data.py", "2.5", "T", "x_cells"] none).attemptedLoad = false ∧
     (mainRun ["visualize_data.py", "2.5", "T", "x_cells"] none).figure = none ∧
     (mainRun ["visualize_data.py", "2.5", "T", "x_cells"] none).wroteOutput = false) :=
  ⟨by decide, by decide, by decide,
   invalid_cell_type_spec ["visualize_data.py", "2.5", "T", "x_cells"] none
     (by decide) (by decide) (by decide)⟩

/-- C6: missing positional arguments are filled left to right with the
fixed defaults (threshold 2.0, title "Single Cell Analysis", cell type
"t_cells"), and a supplied position uses the supplied value; stated for
every argument list whose supplied threshold parses and whose supplied
cell type is valid (otherwise resolution aborts on those paths). -/
theorem defaults_spec (argv : List String)
    (hthr : argv.length > 1 → (pyFloat (argv.getD 1 "")).isSome)
    (hct : argv.length > 3 → argv.getD 3 "" ∈ valid_types) :
    resolveArgs argv =
      .ok (if argv.length > 1 then (pyFloat (argv.getD 1 "")).getD DEFAULT_THRESHOLD
           else DEFAULT_THRESHOLD)
          (if argv.length > 2 then argv.getD 2 "" else DEFAULT_TITLE)
          (if argv.length > 3 then argv.getD 3 "" else DEFAULT_CELL_TYPE) := by
  by_cases h1 : argv.length > 1
  · obtain ⟨t, ht⟩ := Option.isSome_iff_exists.mp (hthr h1)
    have e1 : (if argv.length > 1 then pyFloat (argv.getD 1 "")
               else some DEFAULT_THRESHOLD) = some t := by rw [if_pos h1, ht]
    have et : (if argv.length > 1 then (pyFloat (argv.getD 1 "")).getD DEFAULT_THRESHOLD
               else DEFAULT_THRESHOLD) = t := by rw [if_pos h1, ht]; rfl
    rw [et]
    simp only [resolveArgs, e1]
    by_cases h3 : argv.length > 3
    · rw [if_pos h3, if_pos (hct h3), if_pos h3]
    · rw [if_neg h3, if_neg h3]
  · have h2 : ¬ argv.length > 2 := by omega
    have h3 : ¬ argv.length > 3 := by omega
    have e1 : (if argv.length > 1 then pyFloat (argv.getD 1 "")
               else some DEFAULT_THRESHOLD) = some DEFAULT_THRESHOLD := if_neg h1
    simp only [resolveArgs, e1]
    rw [if_neg h3, if_neg h1, if_neg h2, if_neg h3]

/-- C6 witness: with only a title supplied (`visualize_data.py 4 MyTitle`),
the threshold and title are taken from the command line and the cell type
falls back to its default; with no arguments at all, every default is
used. -/
theorem defaults_spec_witness :
    ((["visualize_data.py", "4", "MyTitle"] : List String).length > 1 →
      (pyFloat ((["visualize_data.py", "4", "MyTitle"] : List String).getD 1 "")).isSome) ∧
    ((["visualize_data.py", "4", "MyTitle"] : List String).length > 3 →
      (["visualize_data.py", "4", "MyTitle"] : List String).getD 3 "" ∈ valid_types) ∧
    resolveArgs ["visualize_data.py"] = .ok DEFAULT_THRESHOLD DEFAULT_TITLE DEFAULT_CELL_TYPE ∧
    resolveArgs ["visualize_data.py", "4", "MyTitle"] =
      .ok (if (["visualize_data.py", "4", "MyTitle"] : List String).length > 1 then
             (pyFloat ((["visualize_data.py", "4", "MyTitle"] : List String).getD 1 "")).getD
               DEFAULT_THRESHOLD
           else DEFAULT_THRESHOLD)
          (if (["visualize_data.py", "4", "MyTitle"] : List String).length > 2 then
             (["visualize_data.py", "4", "MyTitle"] : List String).getD 2 ""
           else DEFAULT_TITLE)
          (if (["visualize_data.py", "4", "MyTitle"] : List String).length > 3 then
             (["visualize_data.py", "4", "MyTitle"] : List String).getD 3 ""
           else DEFAULT_CELL_TYPE) :=
  ⟨by decide, by decide, by decide,
   defaults_spec ["visualize_data.py", "4", "MyTitle"] (by decide) (by decide)⟩

/-- C7: when a first positional argument is supplied and does not parse as
a float, the run ends in the uncaught-exception state: nonzero,
non-descriptive exit, no program-printed message, no load attempt, no
output written. -/
theorem bad_threshold_spec (argv : List String) (file : Option CellData)
    (h1 : argv.length > 1) (h2 : pyFloat (argv.getD 1 "") = none) :
    (mainRun argv file).status = .uncaught ∧
    (mainRun argv file).printed = [] ∧
    (mainRun argv file).attemptedLoad = false ∧
    (mainRun argv file).wroteOutput = false := by
  have e1 : (if argv.length > 1 then pyFloat (argv.getD 1 "")
             else some DEFAULT_THRESHOLD) = none := by rw [if_pos h1, h2]
  have hres : resolveArgs argv = .floatValueError := by
    simp only [resolveArgs, e1]
  have hmain : mainRun argv file =
      { status := .uncaught, printed := [], attemptedLoad := false,
        figure := none, wroteOutput := false } := by
    simp only [mainRun, hres]
  rw [hmain]
  exact ⟨rfl, rfl, rfl, rfl⟩

/-- C7 witness: `visualize_data.py not_a_number` fails unhandled with no
message of its own. -/
theorem bad_threshold_spec_witness :
    (["visualize_data.py", "not_a_number"] : List String).length > 1 ∧
    pyFloat ((["visualize_data.py", "not_a_number"] : List String).getD 1 "") = none ∧
    ((mainRun ["visualize_data.py", "not_a_number"] none).status = .uncaught ∧
     (mainRun ["visualize_data.py", "not_a_number"] none).printed = [] ∧
     (mainRun ["visualize_data.py", "not_a_number"] none).attemptedLoad = false ∧
     (mainRun ["visualize_data.py", "not_a_number"] none).wroteOutput = false) :=
  ⟨by decide, by decide,
   bad_threshold_spec ["visualize_data.py", "not_a_number"] none (by decide) (by decide)⟩

/-- C9: an unparseable threshold fails before the cell-type check: even
when the third positional argument is also invalid, the run ends in the
uncaught-exception state, the invalid-cell-type message listing the valid
options is never printed, and the `exit(1)` path of the cell-type check is
not taken. -/
theorem threshold_precedence_spec (argv : List String) (file : Option CellData)
    (h1 : argv.length > 1) (h2 : pyFloat (argv.getD 1 "") = none)
    (_h3 : argv.length > 3) (_h4 : argv.getD 3 "" ∉ valid_types) :
    (mainRun argv file).status = .uncaught ∧
    (mainRun argv file).status ≠ .exited 1 ∧
    ("\n❌ Error: Invalid cell type " ++ sq ++ argv.getD 3 "" ++ sq) ∉
      (mainRun argv file).printed ∧
    "Valid options: t_cells, b_cells, monocytes, nk_cells" ∉
      (mainRun argv file).printed := by
  have e1 : (if argv.length > 1 then pyFloat (argv.getD 1 "")
             else some DEFAULT_THRESHOLD) = none := by rw [if_pos h1, h2]
  have hres : resolveArgs argv = .floatValueError := by
    simp only [resolveArgs, e1]
  have hmain : mainRun argv file =
      { status := .uncaught, printed := [], attemptedLoad := false,
        figure := none, wroteOutput := false } := by
    simp only [mainRun, hres]
  rw [hmain]
  exact ⟨rfl, by simp, by simp, by simp⟩

/-- C9 witness: `visualize_data.py oops T x_cells` (bad threshold and bad
cell type together) dies on the parse, never printing the cell-type
message. -/
theorem threshold_precedence_spec_witness :
    (["visualize_data.py", "oops", "T", "x_cells"] : List String).length > 1 ∧
    pyFloat ((["visualize_data.py", "oops", "T", "x_cells"] : List String).getD 1 "") = none ∧
    (["visualize_data.py", "oops", "T", "x_cells"] : List String).length > 3 ∧
    (["visualize_data.py", "oops", "T", "x_cells"] : List String).getD 3 "" ∉ valid_types ∧
    ((mainRun ["visualize_data.py", "oops", "T", "x_cells"] none).status = .uncaught ∧
     (mainRun ["visualize_data.py", "oops", "T", "x_cells"] none).status ≠ .exited 1 ∧
     ("\n❌ Error: Invalid cell type " ++ sq ++
        (["visualize_data.py", "oops", "T", "x_cells"] : List String).getD 3 "" ++ sq) ∉
       (mainRun ["visualize_data.py", "oops", "T", "x_cells"] none).printed ∧
     "Valid options: t_cells, b_cells, monocytes, nk_cells" ∉
       (mainRun ["visualize_data.py", "oops", "T", "x_cells"] none).printed) :=
  ⟨by decide, by decide, by decide, by decide,
   threshold_precedence_spec ["visualize_data.py", "oops", "T", "x_cells"] none
     (by decide) (by decide) (by decide) (by decide)⟩

/-! ### C3 / C8 / C10: run-level behavior -/

/-- When the supplied threshold parses (or is absent) and the supplied
cell type is valid (or is absent), argument resolution reaches the `ok`
state. -/
theorem resolveArgs_ok_cases (argv : List String)
    (hthr : argv.length > 1 → (pyFloat (argv.getD 1 "")).isSome)
    (hct : argv.length > 3 → argv.getD 3 "" ∈ valid_types) :
    ∃ t ti ct, resolveArgs argv = .ok t ti ct := by
  by_cases h1 : argv.length > 1
  · obtain ⟨t, ht⟩ := Option.isSome_iff_exists.mp (hthr h1)
    have e1 : (if argv.length > 1 then pyFloat (argv.getD 1 "")
               else some DEFAULT_THRESHOLD) = some t := by rw [if_pos h1, ht]
    by_cases h3 : argv.length > 3
    · exact ⟨t, _, _, by simp only [resolveArgs, e1]; rw [if_pos h3, if_pos (hct h3)]⟩
    · exact ⟨t, _, _, by simp only [resolveArgs, e1]; rw [if_neg h3]⟩
  · have e1 : (if argv.length > 1 then pyFloat (argv.getD 1 "")
               else some DEFAULT_THRESHOLD) = some DEFAULT_THRESHOLD := if_neg h1
    have h3 : ¬ argv.length > 3 := by omega
    exact ⟨DEFAULT_THRESHOLD, _, _, by simp only [resolveArgs, e1]; rw [if_neg h3]⟩

/-- C3: with well-formed arguments and the input file missing, the run
prints the error naming the missing path and the hint to run the data
generator, exits with code 1, and does not write the output image. -/
theorem missing_file_spec (argv : List String)
    (hthr : argv.length > 1 → (pyFloat (argv.getD 1 "")).isSome)
    (hct : argv.length > 3 → argv.getD 3 "" ∈ valid_types) :
    (mainRun argv none).status = .exited 1 ∧
    ("\n❌ Error: File " ++ sq ++ DATA_PATH ++ sq ++ " not found!") ∈
      (mainRun argv none).printed ∧
    "Please generate data first using: python generate_data.py" ∈
      (mainRun argv none).printed ∧
    (mainRun argv none).figure = none ∧
    (mainRun argv none).wroteOutput = false := by
  obtain ⟨t, ti, ct, hres⟩ := resolveArgs_ok_cases argv hthr hct
  have hmain : mainRun argv none =
      { status := .exited 1,
        printed :=
          ["\n" ++ eqBar, "Single Cell Data Visualization", eqBar,
           "Data file:        " ++ DATA_PATH,
           "Threshold:        " ++ pyStrFloat t,
           "Title:            " ++ ti,
           "Highlighted Type: " ++ pyTitle (ct.replace "_" " "),
           eqBar ++ "\n", "Loading data..."] ++
          ["\n❌ Error: File " ++ sq ++ DATA_PATH ++ sq ++ " not found!",
           "Please generate data first using: python generate_data.py"],
        attemptedLoad := true, figure := none, wroteOutput := false } := by
    simp only [mainRun, hres, load_data]
  rw [hmain]
  refine ⟨rfl, ?_, ?_, rfl, rfl⟩
  · exact List.mem_append_right _ (by simp)
  · exact List.mem_append_right _ (by simp)

/-- C3 witness: a defaults-only run (`visualize_data.py`) against the
missing file exits 1 with the file error and hint, writing nothing. -/
theorem missing_file_spec_witness :
    ((["visualize_data.py"] : List String).length > 1 →
      (pyFloat ((["visualize_data.py"] : List String).getD 1 "")).isSome) ∧
    ((["visualize_data.py"] : List String).length > 3 →
      (["visualize_data.py"] : List String).getD 3 "" ∈ valid_types) ∧
    ((mainRun ["visualize_data.py"] none).status = .exited 1 ∧
     ("\n❌ Error: File " ++ sq ++ DATA_PATH ++ sq ++ " not found!") ∈
       (mainRun ["visualize_data.py"] none).printed ∧
     "Please generate data first using: python generate_data.py" ∈
       (mainRun ["visualize_data.py"] none).printed ∧
     (mainRun ["visualize_data.py"] none).figure = none ∧
     (mainRun ["visualize_data.py"] none).wroteOutput = false) :=
  ⟨by decide, by decide,
   missing_file_spec ["visualize_data.py"] (by decide) (by decide)⟩

/-- C8: the run is deterministic: two runs on the same argument list and
the same input-file state produce the same figure, the same output-write
behavior, the same printed lines — the same result in full.  The
embedding is a total function of `(argv, file)`, reflecting that the
script consults no randomness, clock or environment between parsing its
arguments and saving the image. -/
theorem deterministic_rendering (argv : List String) (file : Option CellData)
    (r1 r2 : RunResult) (h1 : r1 = mainRun argv file) (h2 : r2 = mainRun argv file) :
    r1.figure = r2.figure ∧ r1.wroteOutput = r2.wroteOutput ∧
    r1.printed = r2.printed ∧ r1 = r2 := by
  subst h1; subst h2; exact ⟨rfl, rfl, rfl, rfl⟩

/-- C8 witness: two defaults-only runs against the example data coincide. -/
theorem deterministic_rendering_witness :
    mainRun ["visualize_data.py"] (some exampleData) =
      mainRun ["visualize_data.py"] (some exampleData) ∧
    ((mainRun ["visualize_data.py"] (some exampleData)).figure =
       (mainRun ["visualize_data.py"] (some exampleData)).figure ∧
     (mainRun ["visualize_data.py"] (some exampleData)).wroteOutput =
       (mainRun ["visualize_data.py"] (some exampleData)).wroteOutput ∧
     (mainRun ["visualize_data.py"] (some exampleData)).printed =
       (mainRun ["visualize_data.py"] (some exampleData)).printed ∧
     mainRun ["visualize_data.py"] (some exampleData) =
       mainRun ["visualize_data.py"] (some exampleData)) :=
  ⟨rfl,
   deterministic_rendering ["visualize_data.py"] (some exampleData)
     (mainRun ["visualize_data.py"] (some exampleData))
     (mainRun ["visualize_data.py"] (some exampleData)) rfl rfl⟩

/-- C10: positional arguments beyond the third are silently ignored: when
all three positions are supplied, appending any trailing arguments leaves
the entire run result unchanged. -/
theorem extra_args_ignored (argv extra : List String) (file : Option CellData)
    (h : 4 ≤ argv.length) :
    mainRun (argv ++ extra) file = mainRun argv file := by
  have h1 : argv.length > 1 := by omega
  have h2 : argv.length > 2 := by omega
  have h3 : argv.length > 3 := by omega
  have h1' : (argv ++ extra).length > 1 := by rw [List.length_append]; omega
  have h2' : (argv ++ extra).length > 2 := by rw [List.length_append]; omega
  have h3' : (argv ++ extra).length > 3 := by rw [List.length_append]; omega
  have g1 : (argv ++ extra).getD 1 "" = argv.getD 1 "" :=
    List.getD_append argv extra "" 1 (by omega)
  have g2 : (argv ++ extra).getD 2 "" = argv.getD 2 "" :=
    List.getD_append argv extra "" 2 (by omega)
  have g3 : (argv ++ extra).getD 3 "" = argv.getD 3 "" :=
    List.getD_append argv extra "" 3 (by omega)
  have hres : resolveArgs (argv ++ extra) = resolveArgs argv := by
    simp only [resolveArgs, g1, g2, g3, eq_true h1, eq_true h1', eq_true h2,
      eq_true h2', eq_true h3, eq_true h3', if_true]
  simp only [mainRun, hres]

/-- C10 witness: two trailing junk arguments after
`visualize_data.py 4 T t_cells` change nothing. -/
theorem extra_args_ignored_witness :
    4 ≤ (["visualize_data.py", "4", "T", "t_cells"] : List String).length ∧
    mainRun (["visualize_data.py", "4", "T", "t_cells"] ++ ["junk1", "junk2"]) none =
      mainRun ["visualize_data.py", "4", "T", "t_cells"] none :=
  ⟨by decide,
   extra_args_ignored ["visualize_data.py", "4", "T", "t_cells"] ["junk1", "junk2"] none
     (by decide)⟩

/-! ### C4 / C5: Panel A highlighting -/

/-- A dataset containing only t_cells, used to witness that the legend
still shows all four cell types. -/
def smallData : CellData :=
  { x := [1], y := [2], cell_types := ["t_cells"], gene1 := [1], gene2 := [1],
    colors := ["#e74c3c"] }

/-- Suffix test at the character-list level (used in statements; the
byte-level `String.endsWith` does not reduce in proofs): `s` ends with
`t` when the reversed character list of `t` is an initial segment of the
reversed character list of `s`. -/
def strEndsWith (s t : String) : Bool :=
  s.toList.reverse.take t.toList.length == t.toList.reverse

/-- Characterization following the spec's words: the values (drawn from
`vals`) at the cell indices whose cell-type label satisfies `p`. -/
def specPartition {α : Type} (p : String → Bool) (cts : List String)
    (vals : List α) : List α :=
  (cts.zip vals).filterMap (fun q => if p q.1 then some q.2 else none)

/-- Boolean-mask selection through a pointwise predicate mask equals the
predicate-directed selection on the zipped lists. -/
theorem maskFilter_map {α : Type} (p : String → Bool) :
    ∀ (cts : List String) (vals : List α),
      maskFilter (cts.map p) vals = specPartition p cts vals := by
  intro cts
  induction cts with
  | nil => intro vals; rfl
  | cons c t ih =>
    intro vals
    cases vals with
    | nil => rfl
    | cons v vs =>
      have ihv := ih vs
      simp only [maskFilter, specPartition] at ihv ⊢
      simp only [List.map_cons, List.zip_cons_cons, List.filter_cons,
        List.filterMap_cons]
      cases hp : p c
      · simpa [hp] using ihv
      · simpa [hp] using ihv

/-- C4: for every dataset and every valid highlighted type, Panel A's
legend is the fixed four-entry list (one hardcoded label/color pair per
known cell type, regardless of which types occur in the data), and exactly
the entry of the highlighted type carries the " (Selected)" suffix, the
larger marker size 120 and the gold edge, while the other three have
size 50, white edge and no suffix. -/
theorem legend_spec (data : CellData) (threshold : ℚ) (title ht : String)
    (hvalid : ht ∈ valid_types) :
    (plot_single_cell_data data threshold title ht).legendEntries = legendElements ht ∧
    (legendElements ht).map (fun e => (e.ctName, e.color)) =
      [("t_cells", "#e74c3c"), ("b_cells", "#3498db"),
       ("monocytes", "#2ecc71"), ("nk_cells", "#f39c12")] ∧
    ((legendElements ht).filter
        (fun e => strEndsWith e.label " (Selected)")).map (fun e => e.ctName) = [ht] ∧
    (∀ e ∈ legendElements ht, e.ctName = ht →
      (strEndsWith e.label " (Selected)" = true ∧ e.markerSize = 120 ∧
       e.edgeColor = "gold")) ∧
    (∀ e ∈ legendElements ht, e.ctName ≠ ht →
      (strEndsWith e.label " (Selected)" = false ∧ e.markerSize = 50 ∧
       e.edgeColor = "white")) := by
  refine ⟨rfl, ?_⟩
  simp only [valid_types, List.mem_cons, List.mem_singleton, List.not_mem_nil,
    or_false] at hvalid
  rcases hvalid with rfl | rfl | rfl | rfl <;>
    exact ⟨by decide, by decide, by decide, by decide⟩

/-- C4 witness: with data containing only t_cells and b_cells highlighted,
the legend still has all four hardcoded entries and exactly the b_cells
entry is selected. -/
theorem legend_spec_witness :
    "b_cells" ∈ valid_types ∧
    ((plot_single_cell_data smallData DEFAULT_THRESHOLD DEFAULT_TITLE
        "b_cells").legendEntries = legendElements "b_cells" ∧
     (legendElements "b_cells").map (fun e => (e.ctName, e.color)) =
       [("t_cells", "#e74c3c"), ("b_cells", "#3498db"),
        ("monocytes", "#2ecc71"), ("nk_cells", "#f39c12")] ∧
     ((legendElements "b_cells").filter
         (fun e => strEndsWith e.label " (Selected)")).map (fun e => e.ctName) =
       ["b_cells"] ∧
     (∀ e ∈ legendElements "b_cells", e.ctName = "b_cells" →
       (strEndsWith e.label " (Selected)" = true ∧ e.markerSize = 120 ∧
        e.edgeColor = "gold")) ∧
     (∀ e ∈ legendElements "b_cells", e.ctName ≠ "b_cells" →
       (strEndsWith e.label " (Selected)" = false ∧ e.markerSize = 50 ∧
        e.edgeColor = "white"))) :=
  ⟨by decide,
   legend_spec smallData DEFAULT_THRESHOLD DEFAULT_TITLE "b_cells" (by decide)⟩

/-- C5: Panel A partitions the cells by exact string equality of
`cell_types` against the highlighted type; the scatter call for the
non-matching cells is issued first (marker 50, no explicit z-order), and
the scatter call for the matching cells is issued second with
`zorder=100`, placing the highlighted cells above the other marks.
(Stated for datasets in which the highlighted type occurs: when no cell
matches, the script skips the second call.) -/
theorem highlight_partition_spec (data : CellData) (threshold : ℚ)
    (title ht : String) (hmem : ht ∈ data.cell_types) :
    (plot_single_cell_data data threshold title ht).ax1Calls =
      [{ xs := specPartition (fun ct => !(ct == ht)) data.cell_types data.x,
         ys := specPartition (fun ct => !(ct == ht)) data.cell_types data.y,
         c := some (specPartition (fun ct => !(ct == ht)) data.cell_types data.colors),
         s := 50, alpha := 6/10, edgecolors := "white", linewidth := 1/2,
         zorder := none, facecolorsNone := false },
       { xs := specPartition (fun ct => ct == ht) data.cell_types data.x,
         ys := specPartition (fun ct => ct == ht) data.cell_types data.y,
         c := some (specPartition (fun ct => ct == ht) data.cell_types data.colors),
         s := 120, alpha := 9/10, edgecolors := "gold", linewidth := 5/2,
         zorder := some 100, facecolorsNone := false }] := by
  have hany : (data.cell_types.map (fun ct => ct == ht)).any id = true := by
    refine List.any_eq_true.mpr ⟨ht == ht, List.mem_map.mpr ⟨ht, hmem, rfl⟩, ?_⟩
    simp
  simp only [plot_single_cell_data, List.map_map, hany, if_true]
  rw [maskFilter_map, maskFilter_map, maskFilter_map, maskFilter_map,
    maskFilter_map, maskFilter_map]
  simp [Function.comp_def]

/-- C5 witness: on the example data with t_cells highlighted, Panel A
consists of exactly the non-matching scatter followed by the matching
scatter with `zorder=100`. -/
theorem highlight_partition_spec_witness :
    "t_cells" ∈ exampleData.cell_types ∧
    (plot_single_cell_data exampleData DEFAULT_THRESHOLD DEFAULT_TITLE
        "t_cells").ax1Calls =
      [{ xs := specPartition (fun ct => !(ct == "t_cells")) exampleData.cell_types
           exampleData.x,
         ys := specPartition (fun ct => !(ct == "t_cells")) exampleData.cell_types
           exampleData.y,
         c := some (specPartition (fun ct => !(ct == "t_cells"))
           exampleData.cell_types exampleData.colors),
         s := 50, alpha := 6/10, edgecolors := "white", linewidth := 1/2,
         zorder := none, facecolorsNone := false },
       { xs := specPartition (fun ct => ct == "t_cells") exampleData.cell_types
           exampleData.x,
         ys := specPartition (fun ct => ct == "t_cells") exampleData.cell_types
           exampleData.y,
         c := some (specPartition (fun ct => ct == "t_cells")
           exampleData.cell_types exampleData.colors),
         s := 120, alpha := 9/10, edgecolors := "gold", linewidth := 5/2,
         zorder := some 100, facecolorsNone := false }] :=
  ⟨by decide,
   highlight_partition_spec exampleData DEFAULT_THRESHOLD DEFAULT_TITLE
     "t_cells" (by decide)⟩

end VisualizeData
